import Mathlib

/-!
Shallow embedding of `src/lease/read_lease.go` (package `lease` of
mookjp/gcsfuse): the revocable read lease over a temporary file.

The Go `readLease` struct holds a constant `size`, a pointer to the issuing
`fileLeaser`, and a `file *os.File` that is set to `nil` once the lease is
revoked.  We model the struct as `ReadLeaseState`, the nil-able file pointer
as `Option OsFile`, and pointer identity (used by the leaser's tracking
structures) as a numeric `id`.

The underlying `os.File` is an external collaborator: its `Read`, `Seek` and
`ReadAt` results are supplied by a `FileEnv` oracle.  Each lease method is
embedded as a pure function returning the Go results, the post-state of the
lease, and a trace of lock / pool / file-I-O events, so that ordering claims
(promotion before the lease lock, no file access after revocation, no lock in
`Size`) can be stated about the code path itself.

The `fileLeaser` source file is not under `src/`; the leaser operations the
claims need (`upgrade`, `revokeVoluntarily`, the body of
`promoteToMostRecent`) are modelled from the spec and marked as such.
-/

namespace GcsLease

/-- A Go `error` value as seen by lease callers: the distinguished
`*RevokedError` sentinel from `read_lease.go`, or an arbitrary error coming
from the `os.File` layer (identified by a code, since os is external). -/
inductive GoError where
  | revokedError
  | osError (code : Nat)
deriving DecidableEq

/-- The underlying `*os.File`, identified by its pointer identity; its I-O
behaviour is external (supplied by `FileEnv`). -/
structure OsFile where
  fid : Nat
deriving DecidableEq

/-- Events emitted along a lease method's code path: acquiring/releasing the
leaser's lock (`rl.leaser.mu`) and the lease's own lock (`rl.Mu`), the LRU
promotion performed by the leaser, and the delegated file operations. -/
inductive Event where
  | acquirePoolLock
  | releasePoolLock
  | promote
  | acquireLeaseLock
  | releaseLeaseLock
  | fileRead
  | fileSeek
  | fileReadAt
deriving DecidableEq

/-- Oracle for the external `os.File` operations: for given arguments it
yields the values and the error that the file returns.  The lease never
inspects these results, it passes them through. -/
structure FileEnv where
  readResult : OsFile → Nat → Nat × Option GoError
  seekResult : OsFile → Int → Int → Int × Option GoError
  readAtResult : OsFile → Nat → Int → Nat × Option GoError

/-- The `readLease` struct of `read_lease.go`:
`size` (constant), the issuing leaser (just its identity here), and
`file *os.File`, `nil` once revoked, modelled as `Option OsFile`.
The `id` field models the Go pointer identity of the lease object, which the
leaser's LRU tracking is keyed on. -/
structure ReadLeaseState where
  id : Nat
  size : Int
  leaser : Nat
  file : Option OsFile
deriving DecidableEq

/-- `newReadLease(size, leaser, file)`: stores the three fields verbatim.
A Go caller could in principle pass a nil `*os.File`, hence `Option`. -/
def newReadLease (id : Nat) (size : Int) (leaser : Nat)
    (file : Option OsFile) : ReadLeaseState :=
  { id := id, size := size, leaser := leaser, file := file }

/-- `rl.revoked()`: the lease is revoked iff `rl.file == nil`. -/
def revoked (rl : ReadLeaseState) : Bool :=
  rl.file.isNone

/-- Result of `readLease.Read` / `readLease.ReadAt`: bytes read, error,
post-state of the lease, and the event trace of the call. -/
structure ReadResult where
  n : Nat
  err : Option GoError
  post : ReadLeaseState
  trace : List Event
deriving DecidableEq

/-- Result of `readLease.Seek`. -/
structure SeekResult where
  off : Int
  err : Option GoError
  post : ReadLeaseState
  trace : List Event
deriving DecidableEq

/-- Modelled from the spec: the event trace of `fileLeaser.promoteToMostRecent`
(the `fileLeaser` source is not under src/).  Per the spec it runs "under the
Pool lock only (never combined with the lease lock)". -/
def promoteTrace : List Event :=
  [Event.acquirePoolLock, Event.promote, Event.releasePoolLock]

/-- `readLease.Read`: promote to most-recently-used, acquire `rl.Mu`, fail
with `&RevokedError{}` if revoked (named return `n` keeps its zero value),
otherwise delegate to `rl.file.Read` and return its results verbatim. -/
def Read (env : FileEnv) (rl : ReadLeaseState) (pLen : Nat) : ReadResult :=
  match rl.file with
  | none =>
      { n := 0, err := some GoError.revokedError, post := rl,
        trace := promoteTrace ++ [Event.acquireLeaseLock, Event.releaseLeaseLock] }
  | some f =>
      let r := env.readResult f pLen
      { n := r.1, err := r.2, post := rl,
        trace := promoteTrace ++
          [Event.acquireLeaseLock, Event.fileRead, Event.releaseLeaseLock] }

/-- `readLease.Seek`: acquire `rl.Mu` directly (no promotion), fail with
`&RevokedError{}` if revoked (named return `off` keeps its zero value),
otherwise delegate to `rl.file.Seek` and return its results verbatim. -/
def Seek (env : FileEnv) (rl : ReadLeaseState) (offset : Int)
    (whence : Int) : SeekResult :=
  match rl.file with
  | none =>
      { off := 0, err := some GoError.revokedError, post := rl,
        trace := [Event.acquireLeaseLock, Event.releaseLeaseLock] }
  | some f =>
      let r := env.seekResult f offset whence
      { off := r.1, err := r.2, post := rl,
        trace := [Event.acquireLeaseLock, Event.fileSeek, Event.releaseLeaseLock] }

/-- `readLease.ReadAt`: promote to most-recently-used, acquire `rl.Mu`, fail
with `&RevokedError{}` if revoked, otherwise delegate to `rl.file.ReadAt`
and return its results verbatim. -/
def ReadAt (env : FileEnv) (rl : ReadLeaseState) (pLen : Nat)
    (off : Int) : ReadResult :=
  match rl.file with
  | none =>
      { n := 0, err := some GoError.revokedError, post := rl,
        trace := promoteTrace ++ [Event.acquireLeaseLock, Event.releaseLeaseLock] }
  | some f =>
      let r := env.readAtResult f pLen off
      { n := r.1, err := r.2, post := rl,
        trace := promoteTrace ++
          [Event.acquireLeaseLock, Event.fileReadAt, Event.releaseLeaseLock] }

/-- `readLease.Size`: returns `rl.size`; the source comment says
"No lock necessary", so the event trace is empty. -/
def Size (rl : ReadLeaseState) : Int × List Event :=
  (rl.size, [])

/-- `readLease.Revoked`: takes `rl.Mu` and returns `rl.revoked()`. -/
def Revoked (rl : ReadLeaseState) : Bool × List Event :=
  (revoked rl, [Event.acquireLeaseLock, Event.releaseLeaseLock])

/-- The argument of the Go `panic` in `readLease.release`. -/
inductive PanicMsg where
  | alreadyRevoked
deriving DecidableEq

/-- `readLease.release` (LOCKS_REQUIRED(rl.Mu)): panics if already revoked;
otherwise hands the file back to the caller and sets `rl.file = nil`.  It
performs no file operation itself (no deletion). -/
def release (rl : ReadLeaseState) :
    Except PanicMsg (OsFile × ReadLeaseState) :=
  match rl.file with
  | none => Except.error PanicMsg.alreadyRevoked
  | some f => Except.ok (f, { rl with file := none })

/-- A read/write lease as produced by a successful upgrade: exclusive
ownership of the file, sized by the read lease's size at upgrade time. -/
structure WriteLeaseState where
  file : OsFile
  size : Int
deriving DecidableEq

/-- Modelled from the spec: the parts of the `fileLeaser` state that the
claims touch (the `fileLeaser` source is not under src/): the byte budget,
the running usage, and the LRU list of tracked read leases (identified by
lease identity, most-recently-used first). -/
structure LeaserState where
  byteLimit : Int
  usedBytes : Int
  lru : List Nat
deriving DecidableEq

/-- Outcome of `readLease.Upgrade`: a new read/write lease, a Go error, or a
propagated panic. -/
inductive UpgradeOutcome where
  | ok (wl : WriteLeaseState)
  | err (e : GoError)
  | panicked (m : PanicMsg)
deriving DecidableEq

/-- Modelled from the spec: `fileLeaser.upgrade` (the `fileLeaser` source is
not under src/).  Per the spec: under the Pool lock, if the lease is absent
from the tracked set (already revoked or evicted) fail with the revoked-error
marker; otherwise remove it from the LRU list, decrement `usedBytes` by its
size, release the Pool lock, then take the lease's internal `release`
operation to obtain its file and wrap that file in a new write lease. -/
def leaserUpgrade (ls : LeaserState) (rl : ReadLeaseState) :
    UpgradeOutcome × LeaserState × ReadLeaseState :=
  if rl.id ∈ ls.lru then
    let ls' : LeaserState :=
      { byteLimit := ls.byteLimit
        usedBytes := ls.usedBytes - rl.size
        lru := ls.lru.filter (fun i => i != rl.id) }
    match release rl with
    | Except.ok (f, rl') => (UpgradeOutcome.ok { file := f, size := rl.size }, ls', rl')
    | Except.error m => (UpgradeOutcome.panicked m, ls', rl)
  else
    (UpgradeOutcome.err GoError.revokedError, ls, rl)

/-- `readLease.Upgrade`: "Let the leaser do the heavy lifting." -/
def Upgrade (ls : LeaserState) (rl : ReadLeaseState) :
    UpgradeOutcome × LeaserState × ReadLeaseState :=
  leaserUpgrade ls rl

/-- Modelled from the spec: `fileLeaser.revokeVoluntarily` (the `fileLeaser`
source is not under src/).  Per the spec: under the Pool lock, if tracked,
remove from the LRU list and decrement `usedBytes`; then take the lease's
internal `release` operation (the leaser deletes the returned file).  If the
lease was already untracked this is a silent no-op. -/
def revokeVoluntarily (ls : LeaserState) (rl : ReadLeaseState) :
    LeaserState × ReadLeaseState :=
  if rl.id ∈ ls.lru then
    let ls' : LeaserState :=
      { byteLimit := ls.byteLimit
        usedBytes := ls.usedBytes - rl.size
        lru := ls.lru.filter (fun i => i != rl.id) }
    match release rl with
    | Except.ok (_, rl') => (ls', rl')
    | Except.error _ => (ls', rl)
  else
    (ls, rl)

/-- `readLease.Revoke`: "Let the leaser do the heavy lifting." -/
def Revoke (ls : LeaserState) (rl : ReadLeaseState) :
    LeaserState × ReadLeaseState :=
  revokeVoluntarily ls rl

/-- One invocation of any operation available on a read lease, with the
external inputs that operation takes. -/
inductive LeaseOp where
  | opRead (env : FileEnv) (pLen : Nat)
  | opSeek (env : FileEnv) (offset whence : Int)
  | opReadAt (env : FileEnv) (pLen : Nat) (off : Int)
  | opSize
  | opRevokedQuery
  | opRelease
  | opUpgrade (ls : LeaserState)
  | opRevoke (ls : LeaserState)

/-- The post-state of the lease after one operation.  A `release` on an
already-revoked lease panics in Go; the lease state is unchanged there. -/
def applyOp (op : LeaseOp) (rl : ReadLeaseState) : ReadLeaseState :=
  match op with
  | LeaseOp.opRead env p => (Read env rl p).post
  | LeaseOp.opSeek env o w => (Seek env rl o w).post
  | LeaseOp.opReadAt env p o => (ReadAt env rl p o).post
  | LeaseOp.opSize => rl
  | LeaseOp.opRevokedQuery => rl
  | LeaseOp.opRelease =>
      match release rl with
      | Except.ok (_, rl') => rl'
      | Except.error _ => rl
  | LeaseOp.opUpgrade ls => (Upgrade ls rl).2.2
  | LeaseOp.opRevoke ls => (Revoke ls rl).2

/-- Does a trace contain any delegated file operation? -/
def hasFileOp (tr : List Event) : Bool :=
  tr.any (fun e =>
    e == Event.fileRead || e == Event.fileSeek || e == Event.fileReadAt)

/-- Scan a trace keeping the held/free state of the pool lock and the lease
lock; `true` iff at some point both locks are held simultaneously. -/
def bothHeld (pool : Bool) (lk : Bool) : List Event → Bool
  | [] => false
  | e :: rest =>
      let pool' :=
        if e = Event.acquirePoolLock then true
        else if e = Event.releasePoolLock then false
        else pool
      let lk' :=
        if e = Event.acquireLeaseLock then true
        else if e = Event.releaseLeaseLock then false
        else lk
      (pool' && lk') || bothHeld pool' lk' rest

/-- `true` iff the two locks are ever held simultaneously along the trace,
starting from both free. -/
def locksOverlap (tr : List Event) : Bool :=
  bothHeld false false tr

/-! Concrete fixtures used to exercise the definitions. -/

/-- A file environment whose operations all succeed returning zero values. -/
def trivialEnv : FileEnv :=
  { readResult := fun _ _ => (0, none)
    seekResult := fun _ _ _ => (0, none)
    readAtResult := fun _ _ _ => (0, none) }

/-- A file environment whose operations all fail with os error 7. -/
def faultyEnv : FileEnv :=
  { readResult := fun _ _ => (0, some (GoError.osError 7))
    seekResult := fun _ _ _ => (0, some (GoError.osError 7))
    readAtResult := fun _ _ _ => (0, some (GoError.osError 7)) }

/-- A concrete underlying file. -/
def fileA : OsFile := { fid := 5 }

/-- A concrete valid (non-revoked) lease holding `fileA`. -/
def liveLease : ReadLeaseState :=
  { id := 1, size := 42, leaser := 0, file := some fileA }

/-- A concrete revoked lease. -/
def deadLease : ReadLeaseState :=
  { id := 2, size := 10, leaser := 0, file := none }

/-- A concrete leaser state tracking exactly `liveLease`. -/
def poolOne : LeaserState :=
  { byteLimit := 100, usedBytes := 42, lru := [1] }

end GcsLease

namespace GcsLease

/-- C1: for every read lease that has transitioned to Revoked (its file is
absent), every subsequent `Read`, `Seek` or `ReadAt` call returns the
distinguished `RevokedError` marker, performs no file operation, and its
entire result is independent of the behaviour of the file layer. -/
theorem c1_revoked_ops_return_revoked_error_without_file_ops
    (env env' : FileEnv) (rl : ReadLeaseState) (h : revoked rl = true)
    (pLen : Nat) (offset whence aOff : Int) :
    ((Read env rl pLen).err = some GoError.revokedError ∧
      hasFileOp (Read env rl pLen).trace = false ∧
      Read env rl pLen = Read env' rl pLen) ∧
    ((Seek env rl offset whence).err = some GoError.revokedError ∧
      hasFileOp (Seek env rl offset whence).trace = false ∧
      Seek env rl offset whence = Seek env' rl offset whence) ∧
    ((ReadAt env rl pLen aOff).err = some GoError.revokedError ∧
      hasFileOp (ReadAt env rl pLen aOff).trace = false ∧
      ReadAt env rl pLen aOff = ReadAt env' rl pLen aOff) := by
  have hf : rl.file = none := Option.isNone_iff_eq_none.mp h
  simp [Read, Seek, ReadAt, hf, hasFileOp, promoteTrace]

/-- Witness for C1 at a concrete revoked lease and two distinct environments. -/
theorem c1_witness :
    revoked deadLease = true ∧
    (Read trivialEnv deadLease 0).err = some GoError.revokedError ∧
    Read trivialEnv deadLease 0 = Read faultyEnv deadLease 0 :=
  ⟨by decide,
   (c1_revoked_ops_return_revoked_error_without_file_ops trivialEnv faultyEnv
      deadLease (by decide) 0 0 0 0).1.1,
   (c1_revoked_ops_return_revoked_error_without_file_ops trivialEnv faultyEnv
      deadLease (by decide) 0 0 0 0).1.2.2⟩

/-- Every lease operation leaves a revoked lease revoked: `Read`, `Seek` and
`ReadAt` never touch `file`; `release` on a revoked lease panics without
mutating; the leaser's `upgrade` and `revokeVoluntarily` only ever clear
`file`. -/
theorem applyOp_revoked_mono (op : LeaseOp) (rl : ReadLeaseState)
    (h : revoked rl = true) : revoked (applyOp op rl) = true := by
  have hf : rl.file = none := Option.isNone_iff_eq_none.mp h
  cases op with
  | opRead env p => simp [applyOp, Read, hf, revoked]
  | opSeek env o w => simp [applyOp, Seek, hf, revoked]
  | opReadAt env p o => simp [applyOp, ReadAt, hf, revoked]
  | opSize => simpa [applyOp] using h
  | opRevokedQuery => simpa [applyOp] using h
  | opRelease => simp [applyOp, release, hf, revoked]
  | opUpgrade ls =>
      by_cases hm : rl.id ∈ ls.lru <;>
        simp [applyOp, Upgrade, leaserUpgrade, release, hf, revoked, hm]
  | opRevoke ls =>
      by_cases hm : rl.id ∈ ls.lru <;>
        simp [applyOp, Revoke, revokeVoluntarily, release, hf, revoked, hm]

/-- C2: a read lease is in exactly one of the two states Valid (file present,
`revoked() = false`) and Revoked (file absent, `revoked() = true`); the
transition is one-directional, since no operation on the lease ever makes
`revoked()` return `false` again once it has returned `true`. -/
theorem c2_two_states_and_revocation_monotone (rl : ReadLeaseState) :
    (revoked rl = true ↔ rl.file = none) ∧
    (revoked rl = false ↔ ∃ f, rl.file = some f) ∧
    (∀ op : LeaseOp, revoked rl = true → revoked (applyOp op rl) = true) := by
  refine ⟨?_, ?_, fun op h => applyOp_revoked_mono op rl h⟩
  · simp [revoked, Option.isNone_iff_eq_none]
  · cases hf : rl.file <;> simp [revoked, hf]

/-- Witness for C2: a concrete revoked lease stays revoked across a release
attempt and an upgrade attempt. -/
theorem c2_witness :
    revoked deadLease = true ∧
    revoked (applyOp LeaseOp.opRelease deadLease) = true ∧
    revoked (applyOp (LeaseOp.opUpgrade poolOne) deadLease) = true :=
  ⟨by decide,
   (c2_two_states_and_revocation_monotone deadLease).2.2 LeaseOp.opRelease (by decide),
   (c2_two_states_and_revocation_monotone deadLease).2.2
     (LeaseOp.opUpgrade poolOne) (by decide)⟩

/-- C3: `release` on a currently-Valid lease returns exactly the file the
lease held and the lease with `file` cleared (Revoked); the file value itself
is handed back untouched, not deleted.  On an already-Revoked lease, `release`
panics instead of returning a recoverable error. -/
theorem c3_release_returns_file_and_revokes (rl : ReadLeaseState) :
    (∀ f, rl.file = some f →
        release rl = Except.ok (f, { rl with file := none }) ∧
        revoked { rl with file := (none : Option OsFile) } = true) ∧
    (revoked rl = true → release rl = Except.error PanicMsg.alreadyRevoked) := by
  constructor
  · intro f hf
    simp [release, hf, revoked]
  · intro h
    have hf : rl.file = none := Option.isNone_iff_eq_none.mp h
    simp [release, hf]

/-- Witness for C3 at a concrete valid lease and a concrete revoked lease. -/
theorem c3_witness :
    release liveLease = Except.ok (fileA, { liveLease with file := none }) ∧
    release deadLease = Except.error PanicMsg.alreadyRevoked :=
  ⟨((c3_release_returns_file_and_revokes liveLease).1 fileA rfl).1,
   (c3_release_returns_file_and_revokes deadLease).2 (by decide)⟩

/-- The `size` field is never modified by any lease operation. -/
theorem applyOp_size_eq (op : LeaseOp) (rl : ReadLeaseState) :
    (applyOp op rl).size = rl.size := by
  cases op with
  | opRead env p => cases hf : rl.file <;> simp [applyOp, Read, hf]
  | opSeek env o w => cases hf : rl.file <;> simp [applyOp, Seek, hf]
  | opReadAt env p o => cases hf : rl.file <;> simp [applyOp, ReadAt, hf]
  | opSize => rfl
  | opRevokedQuery => rfl
  | opRelease => cases hf : rl.file <;> simp [applyOp, release, hf]
  | opUpgrade ls =>
      by_cases hm : rl.id ∈ ls.lru <;>
        cases hf : rl.file <;>
          simp [applyOp, Upgrade, leaserUpgrade, release, hf, hm]
  | opRevoke ls =>
      by_cases hm : rl.id ∈ ls.lru <;>
        cases hf : rl.file <;>
          simp [applyOp, Revoke, revokeVoluntarily, release, hf, hm]

/-- C4: `Size` returns the size fixed at construction, acquires no lock (its
event trace is empty), and keeps returning that original size after any
sequence of operations, revocation included. -/
theorem c4_size_fixed_lock_free_and_stable :
    (∀ id sz lsr f, (Size (newReadLease id sz lsr f)).1 = sz) ∧
    (∀ rl : ReadLeaseState, (Size rl).2 = ([] : List Event)) ∧
    (∀ (rl : ReadLeaseState) (op : LeaseOp),
        (Size (applyOp op rl)).1 = (Size rl).1) := by
  refine ⟨fun id sz lsr f => rfl, fun rl => rfl, fun rl op => ?_⟩
  simp [Size, applyOp_size_eq]

/-- C5: under the leaser invariant (a lease is tracked in the LRU iff it is
still Valid), `Upgrade` on a Revoked lease fails with the `RevokedError`
marker and changes nothing, while `Upgrade` on a Valid lease succeeds exactly
once: it hands the lease's file to the returned read/write lease, leaves the
original lease Revoked, and a second `Upgrade` of that lease fails with
`RevokedError`. -/
theorem c5_upgrade_revoked_fails_valid_succeeds_once
    (ls : LeaserState) (rl : ReadLeaseState)
    (hinv : rl.id ∈ ls.lru ↔ revoked rl = false) :
    (revoked rl = true →
        Upgrade ls rl = (UpgradeOutcome.err GoError.revokedError, ls, rl)) ∧
    (∀ f, rl.file = some f →
        (Upgrade ls rl).1 = UpgradeOutcome.ok { file := f, size := rl.size } ∧
        revoked (Upgrade ls rl).2.2 = true ∧
        (Upgrade ls rl).2.2.id = rl.id ∧
        (Upgrade (Upgrade ls rl).2.1 (Upgrade ls rl).2.2).1 =
          UpgradeOutcome.err GoError.revokedError) := by
  constructor
  · intro h
    have hm : rl.id ∉ ls.lru := fun hmem => by simp [hinv.mp hmem] at h
    simp [Upgrade, leaserUpgrade, hm]
  · intro f hf
    have hrev : revoked rl = false := by simp [revoked, hf]
    have hm : rl.id ∈ ls.lru := hinv.mpr hrev
    simp [Upgrade, leaserUpgrade, release, hf, hm, revoked, List.mem_filter]

/-- Witness for C5: upgrading the concrete valid lease tracked by `poolOne`
succeeds handing over its file, and leaves the lease revoked. -/
theorem c5_witness :
    (Upgrade poolOne liveLease).1 =
      UpgradeOutcome.ok { file := fileA, size := liveLease.size } ∧
    revoked (Upgrade poolOne liveLease).2.2 = true ∧
    (Upgrade (Upgrade poolOne liveLease).2.1 (Upgrade poolOne liveLease).2.2).1 =
      UpgradeOutcome.err GoError.revokedError :=
  ⟨((c5_upgrade_revoked_fails_valid_succeeds_once poolOne liveLease
      (by decide)).2 fileA rfl).1,
   ((c5_upgrade_revoked_fails_valid_succeeds_once poolOne liveLease
      (by decide)).2 fileA rfl).2.1,
   ((c5_upgrade_revoked_fails_valid_succeeds_once poolOne liveLease
      (by decide)).2 fileA rfl).2.2.2⟩

/-- C6: on every execution of `Read` and of `ReadAt`, the promotion of the
lease in the pool (`promoteToMostRecent`) happens strictly before the lease's
own lock is acquired, and at no point of the trace are the pool lock and the
lease lock held simultaneously. -/
theorem c6_promotion_precedes_lease_lock_no_overlap
    (env : FileEnv) (rl : ReadLeaseState) (pLen : Nat) (aOff : Int) :
    (Event.promote ∈ (Read env rl pLen).trace ∧
      (Read env rl pLen).trace.indexOf Event.promote <
        (Read env rl pLen).trace.indexOf Event.acquireLeaseLock ∧
      locksOverlap (Read env rl pLen).trace = false) ∧
    (Event.promote ∈ (ReadAt env rl pLen aOff).trace ∧
      (ReadAt env rl pLen aOff).trace.indexOf Event.promote <
        (ReadAt env rl pLen aOff).trace.indexOf Event.acquireLeaseLock ∧
      locksOverlap (ReadAt env rl pLen aOff).trace = false) := by
  cases hf : rl.file <;>
    refine ⟨⟨?_, ?_, ?_⟩, ⟨?_, ?_, ?_⟩⟩ <;>
      simp [Read, ReadAt, hf, promoteTrace, locksOverlap, bothHeld,
        List.indexOf, List.findIdx, List.findIdx.go] <;>
    decide

/-- C7: `Seek` never promotes the lease in the pool — its trace contains no
promotion and no pool-lock event, so the LRU order is untouched — while it
performs the same revoked check as `Read` and `ReadAt`: on a Revoked lease it
fails with `RevokedError`, on a Valid lease it delegates to the file. -/
theorem c7_seek_no_promotion_same_revoked_check
    (env : FileEnv) (rl : ReadLeaseState) (offset whence : Int) :
    Event.promote ∉ (Seek env rl offset whence).trace ∧
    Event.acquirePoolLock ∉ (Seek env rl offset whence).trace ∧
    Event.releasePoolLock ∉ (Seek env rl offset whence).trace ∧
    (revoked rl = true →
        (Seek env rl offset whence).err = some GoError.revokedError) ∧
    (∀ f, rl.file = some f →
        (Seek env rl offset whence).err = (env.seekResult f offset whence).2) := by
  cases hf : rl.file <;> simp [Seek, hf, revoked]

/-- Witness for C7: seeking the concrete revoked lease promotes nothing and
fails with the revoked error. -/
theorem c7_witness :
    Event.promote ∉ (Seek trivialEnv deadLease 0 0).trace ∧
    (Seek trivialEnv deadLease 0 0).err = some GoError.revokedError :=
  ⟨(c7_seek_no_promotion_same_revoked_check trivialEnv deadLease 0 0).1,
   (c7_seek_no_promotion_same_revoked_check trivialEnv deadLease 0 0).2.2.2.1
     (by decide)⟩

/-- C8: on a Valid lease, `Read`, `Seek` and `ReadAt` return the underlying
file's values and error verbatim — whatever the file layer answers, including
failures, is handed to the caller unchanged. -/
theorem c8_valid_ops_delegate_verbatim
    (env : FileEnv) (rl : ReadLeaseState) (f : OsFile) (hf : rl.file = some f)
    (pLen : Nat) (offset whence aOff : Int) :
    (Read env rl pLen).n = (env.readResult f pLen).1 ∧
    (Read env rl pLen).err = (env.readResult f pLen).2 ∧
    (Seek env rl offset whence).off = (env.seekResult f offset whence).1 ∧
    (Seek env rl offset whence).err = (env.seekResult f offset whence).2 ∧
    (ReadAt env rl pLen aOff).n = (env.readAtResult f pLen aOff).1 ∧
    (ReadAt env rl pLen aOff).err = (env.readAtResult f pLen aOff).2 := by
  simp [Read, Seek, ReadAt, hf]

/-- Witness for C8: with a file layer that fails with os error 7, the failure
reaches the caller of the concrete valid lease verbatim. -/
theorem c8_witness :
    liveLease.file = some fileA ∧
    (Read faultyEnv liveLease 3).err = (faultyEnv.readResult fileA 3).2 ∧
    (Read faultyEnv liveLease 3).err = some (GoError.osError 7) :=
  ⟨rfl,
   (c8_valid_ops_delegate_verbatim faultyEnv liveLease fileA rfl 3 0 0 0).2.1,
   by decide⟩

/-- C9: when `Read`, `Seek` or `ReadAt` fails because the lease is Revoked,
the non-error return value is the Go zero value (0 bytes read, offset 0) and
the lease state is returned unchanged. -/
theorem c9_revoked_failure_returns_zero_and_leaves_state
    (env : FileEnv) (rl : ReadLeaseState) (h : revoked rl = true)
    (pLen : Nat) (offset whence aOff : Int) :
    ((Read env rl pLen).n = 0 ∧
      (Read env rl pLen).err = some GoError.revokedError ∧
      (Read env rl pLen).post = rl) ∧
    ((Seek env rl offset whence).off = 0 ∧
      (Seek env rl offset whence).err = some GoError.revokedError ∧
      (Seek env rl offset whence).post = rl) ∧
    ((ReadAt env rl pLen aOff).n = 0 ∧
      (ReadAt env rl pLen aOff).err = some GoError.revokedError ∧
      (ReadAt env rl pLen aOff).post = rl) := by
  have hf : rl.file = none := Option.isNone_iff_eq_none.mp h
  simp [Read, Seek, ReadAt, hf]

/-- Witness for C9 at the concrete revoked lease. -/
theorem c9_witness :
    (Read trivialEnv deadLease 8).n = 0 ∧
    (Seek trivialEnv deadLease 4 1).off = 0 ∧
    (ReadAt trivialEnv deadLease 8 2).post = deadLease :=
  ⟨(c9_revoked_failure_returns_zero_and_leaves_state trivialEnv deadLease
      (by decide) 8 4 1 2).1.1,
   (c9_revoked_failure_returns_zero_and_leaves_state trivialEnv deadLease
      (by decide) 8 4 1 2).2.1.1,
   (c9_revoked_failure_returns_zero_and_leaves_state trivialEnv deadLease
      (by decide) 8 4 1 2).2.2.2.2⟩

/-- C10: `newReadLease` with a present (non-nil) file produces a lease that
is initially Valid — `revoked()` is `false` — and whose `Size` is exactly the
size argument passed at construction. -/
theorem c10_new_lease_valid_and_sized
    (id : Nat) (sz : Int) (lsr : Nat) (f : OsFile) :
    revoked (newReadLease id sz lsr (some f)) = false ∧
    (Size (newReadLease id sz lsr (some f))).1 = sz := by
  simp [newReadLease, revoked, Size]

end GcsLease
